import Mathlib

set_option linter.unusedVariables false

/-!
Shallow embedding of the GNSS instance registry implemented in
`gnss/src/u_gnss.c` (with types from `gnss/src/u_gnss_private.h`).

The C globals `gUGnssPrivateMutex` and `gpUGnssPrivateInstanceList` become an
explicit state record `GnssState`.  OS / platform capabilities (uPort mutexes,
GPIO, malloc, the uDevice instance allocator) are modelled by an outcome record
`AddEnv` for the fallible calls, by lists of live resource identifiers for the
allocation accounting, and by an `Event` trace for the externally visible calls
(GPIO accesses and per-instance teardown), so that rollback and teardown
ordering are provable statements.
-/

/- ------------------------------------------------------------------
Constants from headers that are not part of the sources.
------------------------------------------------------------------ -/

/-- Modelled from the spec: `u_error_common.h` is not under the sources; per the
spec's error taxonomy the common error codes are distinct values with success
equal to zero (the code relies on success being zero, e.g. comparing the result
of `uPortMutexCreate` with 0). -/
def U_ERROR_COMMON_SUCCESS : Int := 0

def U_ERROR_COMMON_NOT_INITIALISED : Int := -2

def U_ERROR_COMMON_INVALID_PARAMETER : Int := -5

def U_ERROR_COMMON_NO_MEMORY : Int := -6

def U_ERROR_COMMON_PLATFORM : Int := -8

def U_ERROR_COMMON_TIMEOUT : Int := -9

/-- Modelled from the spec: `u_gnss_type.h` is not under the sources; the spec
describes the enable-power pin argument encoding as "a sign-bit-like flag on
the pin number indicates invert the on-level; the raw pin number is the low
bits", i.e. a single high bit used as a flag. -/
def U_GNSS_PIN_INVERTED : Int := 0x8000

/-- Modelled from the spec: the default logical on-state of the enable-power
pin (`u_gnss_type.h` is not under the sources). -/
def U_GNSS_PIN_ENABLE_POWER_ON_STATE : Int := 1

/-- Modelled from the spec: the compile-time default I2C address of a GNSS
device (`u_gnss_type.h` is not under the sources). -/
def U_GNSS_I2C_ADDRESS : Nat := 0x42

/-- Modelled from the spec: the compile-time default response timeout in
milliseconds (`u_gnss_type.h` is not under the sources). -/
def U_GNSS_DEFAULT_TIMEOUT_MS : Int := 10000

/-- Modelled from the spec: the number of entries of the module characteristics
table `gUGnssPrivateModuleList` (its definition is in `u_gnss_private.c`, not
under the sources); the spec calls it "a fixed, ordered list" queried by index,
and only the size is ever consulted by the registry code. -/
def gUGnssPrivateModuleListSize : Nat := 2

/- Transport type enumeration, from `u_gnss_type.h` as used by `u_gnss.c`
(the enumerators and their order are pinned down by `gpTransportTypeText`
in `u_gnss.c`). C enums are ints, so the model uses `Int`. -/

def U_GNSS_TRANSPORT_NONE : Int := 0

def U_GNSS_TRANSPORT_UBX_UART : Int := 1

def U_GNSS_TRANSPORT_UBX_AT : Int := 2

def U_GNSS_TRANSPORT_NMEA_UART : Int := 3

def U_GNSS_TRANSPORT_UBX_I2C : Int := 4

def U_GNSS_TRANSPORT_NMEA_I2C : Int := 5

def U_GNSS_TRANSPORT_MAX_NUM : Int := 6

/-- C logical negation on an int: `!x` is 1 when `x` is 0 and 0 otherwise. -/
def cNot (x : Int) : Int := if x = 0 then 1 else 0

/-- GPIO drive modes used by `uGnssAdd` (`u_port_gpio.h` values
`U_PORT_GPIO_DRIVE_MODE_NORMAL` / `U_PORT_GPIO_DRIVE_MODE_OPEN_DRAIN`). -/
inductive UPortGpioDriveMode where
  | normal
  | openDrain
deriving DecidableEq, Repr

/-- The transport handle union `uGnssTransportHandle_t`: a UART handle, an I2C
handle or an AT client pointer.  The C type is a union; the code only ever
reads the member selected by the transport type, so a product model is
observationally faithful.  The AT pointer is modelled as a numeric identity. -/
structure UGnssTransportHandle where
  uart : Int
  i2c : Int
  pAt : Nat
deriving DecidableEq, Repr

/-- `uGnssPrivateInstance_t` from `u_gnss_private.h`.  Pointers held by the
instance (device instance, transport mutex, the malloc block itself, position
task and mutex) are modelled as numeric resource identifiers.  `pModule` points
at `gUGnssPrivateModuleList[moduleType]`, so the index is stored.
`i2cAddress` is a `uint16_t`, hence a `Nat` kept below 2^16. -/
structure UGnssPrivateInstance where
  gnssHandle : Nat
  allocId : Nat
  moduleType : Nat
  transportType : Int
  transportHandle : UGnssTransportHandle
  i2cAddress : Nat
  timeoutMs : Int
  printUbxMessages : Bool
  pinGnssEnablePower : Int
  pinGnssEnablePowerOnState : Int
  atModulePinPwr : Int
  atModulePinDataReady : Int
  portNumber : Int
  transportMutex : Nat
  posTask : Option Nat
  posMutex : Option Nat
  posTaskFlags : Nat
deriving DecidableEq, Repr

/-- The mutable state of `u_gnss.c`: the registry mutex `gUGnssPrivateMutex`
(`none` = NULL), the instance list `gpUGnssPrivateInstanceList` (head first),
plus resource accounting for live uDevice instances, live port mutexes and
live malloc blocks, and a fresh-identifier counter. -/
structure GnssState where
  gUGnssPrivateMutex : Option Nat
  gpUGnssPrivateInstanceList : List UGnssPrivateInstance
  devInstances : List Nat
  mutexes : List Nat
  allocs : List Nat
  nextId : Nat
deriving DecidableEq, Repr

/-- Externally visible side effects of the registry code: GPIO accesses and the
per-instance teardown calls, recorded in call order. -/
inductive Event where
  | gpioSet (pin : Int) (level : Int)
  | gpioConfig (pin : Int) (driveMode : UPortGpioDriveMode)
  | cleanUpPosTask (handle : Nat)
  | mutexDelete (mutexId : Nat)
  | deviceDestroy (devId : Nat)
  | unlink (handle : Nat)
  | freeInstance (allocId : Nat)
deriving DecidableEq, Repr

/-- Outcomes of the fallible platform calls made during one `uGnssAdd`:
whether `pUDeviceCreateInstance` and `malloc` succeed, and the error codes
returned by `uPortMutexCreate`, `uPortGpioSet` and `uPortGpioConfig`
(0 = success). -/
structure AddEnv where
  devCreateOk : Bool
  mallocOk : Bool
  mutexCreateErr : Int
  gpioSetErr : Int
  gpioConfigErr : Int
deriving DecidableEq, Repr

/-- The result of one `uGnssAdd` call: the returned error-code-or-handle, the
value written through `pGnssHandle` (`none` when it was not written), the new
global state, and the trace of external calls. -/
structure AddResult where
  code : Int
  handle : Option Nat
  state : GnssState
  events : List Event
deriving DecidableEq, Repr

/- ------------------------------------------------------------------
Lookup helpers.
------------------------------------------------------------------ -/

/-- Modelled from the spec: the body of `pUGnssPrivateGetInstance` lives in
`u_gnss_private.c`, which is not under the sources; the spec describes it as
`findByHandle`, a linear scan of the registry list requiring the guarding
lock.  Returns the first instance whose handle matches. -/
def findInstance : List UGnssPrivateInstance → Nat → Option UGnssPrivateInstance
  | [], _ => none
  | i :: rest, h => if i.gnssHandle = h then some i else findInstance rest h

/-- `pUGnssPrivateGetInstance` applied to a state's registry list. -/
def pUGnssPrivateGetInstance (st : GnssState) (h : Nat) : Option UGnssPrivateInstance :=
  findInstance st.gpUGnssPrivateInstanceList h

/-- The comparison made by the `switch` inside
`pGetGnssInstanceTransportHandle` in `u_gnss.c`: UART kinds compare the `uart`
member, the AT kind compares the `pAt` member, I2C kinds compare the `i2c`
member, anything else never matches. -/
def uGnssTransportIdentityMatches (tt : Int) (a b : UGnssTransportHandle) : Bool :=
  if tt = U_GNSS_TRANSPORT_UBX_UART ∨ tt = U_GNSS_TRANSPORT_NMEA_UART then a.uart == b.uart
  else if tt = U_GNSS_TRANSPORT_UBX_AT then a.pAt == b.pAt
  else if tt = U_GNSS_TRANSPORT_UBX_I2C ∨ tt = U_GNSS_TRANSPORT_NMEA_I2C then a.i2c == b.i2c
  else false

/-- `pGetGnssInstanceTransportHandle` from `u_gnss.c`: scan the list for the
first instance with the *same* `transportType` whose active transport handle
member equals the given one. -/
def pGetGnssInstanceTransportHandle :
    List UGnssPrivateInstance → Int → UGnssTransportHandle → Option UGnssPrivateInstance
  | [], _, _ => none
  | i :: rest, tt, th =>
    if i.transportType = tt ∧ uGnssTransportIdentityMatches tt i.transportHandle th = true
    then some i
    else pGetGnssInstanceTransportHandle rest tt th

/-- In-place field update of the first instance with the given handle, the
effect of `pUGnssPrivateGetInstance` followed by a field write in the C. -/
def updateInstance (l : List UGnssPrivateInstance) (h : Nat)
    (f : UGnssPrivateInstance → UGnssPrivateInstance) : List UGnssPrivateInstance :=
  match l with
  | [] => []
  | i :: rest => if i.gnssHandle = h then f i :: rest else i :: updateInstance rest h f

/-- Unlink the first instance with the given handle from the list, the
list-surgery part of `deleteGnssInstance` in `u_gnss.c`. -/
def removeInstance : List UGnssPrivateInstance → Nat → List UGnssPrivateInstance
  | [], _ => []
  | i :: rest, h => if i.gnssHandle = h then rest else i :: removeInstance rest h

/- ------------------------------------------------------------------
uGnssInit / instance deletion / uGnssDeinit / uGnssRemove.
------------------------------------------------------------------ -/

/-- `uGnssInit` from `u_gnss.c`: create the registry mutex if it does not yet
exist (idempotent); `mutexCreateErr` is the result of `uPortMutexCreate`. -/
def uGnssInit (mutexCreateErr : Int) (st : GnssState) : Int × GnssState :=
  match st.gUGnssPrivateMutex with
  | some _ => (U_ERROR_COMMON_SUCCESS, st)
  | none =>
    if mutexCreateErr = 0 then
      (U_ERROR_COMMON_SUCCESS,
       { st with gUGnssPrivateMutex := some st.nextId,
                 mutexes := st.mutexes ++ [st.nextId],
                 nextId := st.nextId + 1 })
    else (mutexCreateErr, st)

/-- The external calls made for one instance by `deleteGnssInstance` in
`u_gnss.c`, in source order: stop the position task, delete the transport
mutex, destroy the uDevice instance, unlink from the list, free the memory. -/
def instTeardownEvents (inst : UGnssPrivateInstance) : List Event :=
  [Event.cleanUpPosTask inst.gnssHandle,
   Event.mutexDelete inst.transportMutex,
   Event.deviceDestroy inst.gnssHandle,
   Event.unlink inst.gnssHandle,
   Event.freeInstance inst.allocId]

/-- `deleteGnssInstance` from `u_gnss.c`, applied to an instance known to be in
the list: performs the teardown calls of `instTeardownEvents`, removes the
instance's resources from the accounting and unlinks it. -/
def deleteGnssInstance (st : GnssState) (inst : UGnssPrivateInstance) : GnssState × List Event :=
  ({ st with
       gpUGnssPrivateInstanceList := removeInstance st.gpUGnssPrivateInstanceList inst.gnssHandle,
       mutexes := st.mutexes.erase inst.transportMutex,
       devInstances := st.devInstances.erase inst.gnssHandle,
       allocs := st.allocs.erase inst.allocId },
   instTeardownEvents inst)

/-- The `while (gpUGnssPrivateInstanceList != NULL)` drain loop of
`uGnssDeinit`, with fuel equal to the number of instances (each iteration
deletes the head of the list). -/
def uGnssDeinitLoop : Nat → GnssState → GnssState × List Event
  | 0, st => (st, [])
  | Nat.succ fuel, st =>
    match st.gpUGnssPrivateInstanceList with
    | [] => (st, [])
    | inst :: _ =>
      let r := deleteGnssInstance st inst
      let r2 := uGnssDeinitLoop fuel r.1
      (r2.1, r.2 ++ r2.2)

/-- `uGnssDeinit` from `u_gnss.c`: when initialised, delete every instance,
then delete the registry mutex and set it to NULL; otherwise do nothing. -/
def uGnssDeinit (st : GnssState) : GnssState × List Event :=
  match st.gUGnssPrivateMutex with
  | none => (st, [])
  | some m =>
    let r := uGnssDeinitLoop st.gpUGnssPrivateInstanceList.length st
    ({ r.1 with gUGnssPrivateMutex := none, mutexes := r.1.mutexes.erase m },
     r.2 ++ [Event.mutexDelete m])

/-- `uGnssRemove` from `u_gnss.c`: when initialised, look the handle up and, if
found, run `deleteGnssInstance`; otherwise do nothing. -/
def uGnssRemove (st : GnssState) (h : Nat) : GnssState × List Event :=
  match st.gUGnssPrivateMutex with
  | none => (st, [])
  | some _ =>
    match pUGnssPrivateGetInstance st h with
    | none => (st, [])
    | some inst => deleteGnssInstance st inst

/- ------------------------------------------------------------------
uGnssAdd.
------------------------------------------------------------------ -/

/-- The flag test `pinGnssEnablePower & U_GNSS_PIN_INVERTED` (nonzero?) of
`uGnssAdd`, written arithmetically on the two's-complement integer: bit 15 of
an int is set exactly when its value modulo 2^16 (euclidean) is at least 2^15.
This is equal to the C bitwise test for every int (including negatives, e.g.
`-1 & 0x8000` is nonzero and `(-1).emod 65536 = 65535 ≥ 32768`). -/
def pinInvertedFlag (pinArg : Int) : Bool := pinArg.emod 65536 ≥ 32768

/-- The physical on-level computed at the top of `uGnssAdd`:
`(pinGnssEnablePower & U_GNSS_PIN_INVERTED) ? !ON_STATE : ON_STATE`. -/
def onStateOf (pinArg : Int) : Int :=
  if pinInvertedFlag pinArg then cNot U_GNSS_PIN_ENABLE_POWER_ON_STATE
  else U_GNSS_PIN_ENABLE_POWER_ON_STATE

/-- The pin number with the inversion flag cleared:
`pinGnssEnablePower &= ~U_GNSS_PIN_INVERTED`.  Clearing one bit of a
two's-complement integer subtracts its weight when it was set and is the
identity otherwise, for every int (e.g. `-1 & ~0x8000 = -32769`). -/
def pinCleared (pinArg : Int) : Int :=
  if pinInvertedFlag pinArg then pinArg - U_GNSS_PIN_INVERTED else pinArg

/-- The drive mode chosen by `uGnssAdd` for the enable-power pin: the static
override `U_GNSS_PIN_ENABLE_POWER_DRIVE_MODE` when that macro is defined
(modelled by `override`), else open-drain, switched to normal when the
computed on-level is 1. -/
def driveModeOf (override : Option UPortGpioDriveMode) (pinArg : Int) : UPortGpioDriveMode :=
  match override with
  | some m => m
  | none => if onStateOf pinArg = 1 then UPortGpioDriveMode.normal else UPortGpioDriveMode.openDrain

/-- The parameter check of `uGnssAdd` (lines 244-249 of `u_gnss.c`): valid
module index, transport type strictly between NONE and MAX_NUM, and for
non-I2C transport types no live instance already bound to the same transport
type and identity. -/
def uGnssAddParamsOk (l : List UGnssPrivateInstance) (moduleType : Nat) (tt : Int)
    (th : UGnssTransportHandle) : Prop :=
  moduleType < gUGnssPrivateModuleListSize ∧
  (U_GNSS_TRANSPORT_NONE < tt ∧ tt < U_GNSS_TRANSPORT_MAX_NUM) ∧
  (tt = U_GNSS_TRANSPORT_UBX_I2C ∨ tt = U_GNSS_TRANSPORT_NMEA_I2C ∨
   pGetGnssInstanceTransportHandle l tt th = none)

instance (l : List UGnssPrivateInstance) (moduleType : Nat) (tt : Int)
    (th : UGnssTransportHandle) : Decidable (uGnssAddParamsOk l moduleType tt th) := by
  unfold uGnssAddParamsOk
  infer_instance

/-- The instance as filled in by the success path of `uGnssAdd` (lines 255-279
of `u_gnss.c`): zeroed, then defaults, with the UART port number 1 for the
UART transport types and 0 otherwise. -/
def mkGnssInstance (devId allocId mutexId : Nat) (moduleType : Nat) (tt : Int)
    (th : UGnssTransportHandle) (pin onState : Int) : UGnssPrivateInstance :=
  { gnssHandle := devId
    allocId := allocId
    moduleType := moduleType
    transportType := tt
    transportHandle := th
    i2cAddress := U_GNSS_I2C_ADDRESS
    timeoutMs := U_GNSS_DEFAULT_TIMEOUT_MS
    printUbxMessages := false
    pinGnssEnablePower := pin
    pinGnssEnablePowerOnState := onState
    atModulePinPwr := -1
    atModulePinDataReady := -1
    portNumber := if tt = U_GNSS_TRANSPORT_UBX_UART ∨ tt = U_GNSS_TRANSPORT_NMEA_UART then 1 else 0
    transportMutex := mutexId
    posTask := none
    posMutex := none
    posTaskFlags := 0 }

/-- The "Sort ENABLE_POWER pin" block of `uGnssAdd` (lines 294-318 of
`u_gnss.c`): when the (cleared) pin number is non-negative, drive the pin to
the off level unless `leavePowerAlone`, and — whenever no set error occurred —
configure the pin as an output with the chosen drive mode (note: the
configuration step is NOT skipped when `leavePowerAlone` is set).  Returns the
final `platformError` and the GPIO calls made. -/
def gnssPinSetup (env : AddEnv) (override : Option UPortGpioDriveMode)
    (pinArg : Int) (leavePowerAlone : Bool) : Int × List Event :=
  if 0 ≤ pinCleared pinArg then
    if leavePowerAlone = false then
      if env.gpioSetErr = 0 then
        (env.gpioConfigErr,
         [Event.gpioSet (pinCleared pinArg) (cNot (onStateOf pinArg)),
          Event.gpioConfig (pinCleared pinArg) (driveModeOf override pinArg)])
      else
        (env.gpioSetErr,
         [Event.gpioSet (pinCleared pinArg) (cNot (onStateOf pinArg))])
    else
      (env.gpioConfigErr,
       [Event.gpioConfig (pinCleared pinArg) (driveModeOf override pinArg)])
  else (0, [])

/-- The GPIO calls of a fully successful pin setup. -/
def pinEvents (override : Option UPortGpioDriveMode) (pinArg : Int)
    (leavePowerAlone : Bool) : List Event :=
  if 0 ≤ pinCleared pinArg then
    (if leavePowerAlone = false then
       [Event.gpioSet (pinCleared pinArg) (cNot (onStateOf pinArg))]
     else []) ++
    [Event.gpioConfig (pinCleared pinArg) (driveModeOf override pinArg)]
  else []

/-- `uGnssAdd` from `u_gnss.c`, translated branch for branch.  `override`
models the optional compile-time macro `U_GNSS_PIN_ENABLE_POWER_DRIVE_MODE`.
Fresh identifiers stand for the pointers returned by
`pUDeviceCreateInstance`, `malloc` and `uPortMutexCreate`; the instance handle
is the device-instance pointer, exactly as in the C.  Note the final branch:
when the mutex was created (error code 0) but a GPIO call failed, the C frees
the mutex and the instance but — because `errorCodeOrHandle` equals
`U_ERROR_COMMON_SUCCESS` — does NOT destroy the device instance and returns 0
without writing `*pGnssHandle`. -/
def uGnssAdd (env : AddEnv) (override : Option UPortGpioDriveMode) (st : GnssState)
    (moduleType : Nat) (transportType : Int) (transportHandle : UGnssTransportHandle)
    (pinGnssEnablePowerArg : Int) (leavePowerAlone : Bool) : AddResult :=
  match st.gUGnssPrivateMutex with
  | none => ⟨U_ERROR_COMMON_NOT_INITIALISED, none, st, []⟩
  | some _ =>
    if env.devCreateOk = false then ⟨U_ERROR_COMMON_NO_MEMORY, none, st, []⟩
    else
      let devId := st.nextId
      let st1 : GnssState :=
        { st with devInstances := st.devInstances ++ [devId], nextId := st.nextId + 1 }
      if uGnssAddParamsOk st1.gpUGnssPrivateInstanceList moduleType transportType transportHandle
      then
        if env.mallocOk = false then
          ⟨U_ERROR_COMMON_NO_MEMORY, none,
           { st1 with devInstances := st1.devInstances.erase devId },
           [Event.deviceDestroy devId]⟩
        else
          let allocId := st1.nextId
          let st2 : GnssState :=
            { st1 with allocs := st1.allocs ++ [allocId], nextId := st1.nextId + 1 }
          if env.mutexCreateErr ≠ 0 then
            ⟨env.mutexCreateErr, none,
             { st2 with allocs := st2.allocs.erase allocId,
                        devInstances := st2.devInstances.erase devId },
             [Event.freeInstance allocId, Event.deviceDestroy devId]⟩
          else
            let mutexId := st2.nextId
            let st3 : GnssState :=
              { st2 with mutexes := st2.mutexes ++ [mutexId], nextId := st2.nextId + 1 }
            let inst := mkGnssInstance devId allocId mutexId moduleType transportType
                          transportHandle (pinCleared pinGnssEnablePowerArg)
                          (onStateOf pinGnssEnablePowerArg)
            let pinRes := gnssPinSetup env override pinGnssEnablePowerArg leavePowerAlone
            if pinRes.1 = 0 then
              ⟨U_ERROR_COMMON_SUCCESS, some devId,
               { st3 with gpUGnssPrivateInstanceList := inst :: st3.gpUGnssPrivateInstanceList },
               pinRes.2⟩
            else
              ⟨U_ERROR_COMMON_SUCCESS, none,
               { st3 with mutexes := st3.mutexes.erase mutexId,
                          allocs := st3.allocs.erase allocId },
               pinRes.2 ++ [Event.mutexDelete mutexId, Event.freeInstance allocId]⟩
      else
        ⟨U_ERROR_COMMON_INVALID_PARAMETER, none,
         { st1 with devInstances := st1.devInstances.erase devId },
         [Event.deviceDestroy devId]⟩

/- ------------------------------------------------------------------
Setters and getters.
------------------------------------------------------------------ -/

/-- `uGnssSetI2cAddress` from `u_gnss.c`: requires an initialised registry, a
known handle and a positive address; the `uint16_t` field truncates the stored
value modulo 2^16. -/
def uGnssSetI2cAddress (st : GnssState) (h : Nat) (i2cAddress : Int) : Int × GnssState :=
  match st.gUGnssPrivateMutex with
  | none => (U_ERROR_COMMON_NOT_INITIALISED, st)
  | some _ =>
    match pUGnssPrivateGetInstance st h with
    | none => (U_ERROR_COMMON_INVALID_PARAMETER, st)
    | some _ =>
      if 0 < i2cAddress then
        let newList := updateInstance st.gpUGnssPrivateInstanceList h
          (fun i => { i with i2cAddress := i2cAddress.toNat % 65536 })
        (U_ERROR_COMMON_SUCCESS, { st with gpUGnssPrivateInstanceList := newList })
      else (U_ERROR_COMMON_INVALID_PARAMETER, st)

/-- `uGnssGetI2cAddress` from `u_gnss.c`. -/
def uGnssGetI2cAddress (st : GnssState) (h : Nat) : Int :=
  match st.gUGnssPrivateMutex with
  | none => U_ERROR_COMMON_NOT_INITIALISED
  | some _ =>
    match pUGnssPrivateGetInstance st h with
    | none => U_ERROR_COMMON_INVALID_PARAMETER
    | some inst => (inst.i2cAddress : Int)

/-- `uGnssGetTransportHandle` from `u_gnss.c` (with both out-pointers
non-NULL): returns the error code and, on success, the written pair. -/
def uGnssGetTransportHandle (st : GnssState) (h : Nat) :
    Int × Option (Int × UGnssTransportHandle) :=
  match st.gUGnssPrivateMutex with
  | none => (U_ERROR_COMMON_NOT_INITIALISED, none)
  | some _ =>
    match pUGnssPrivateGetInstance st h with
    | none => (U_ERROR_COMMON_INVALID_PARAMETER, none)
    | some inst => (U_ERROR_COMMON_SUCCESS, some (inst.transportType, inst.transportHandle))

/-- `uGnssSetAtPinPwr` from `u_gnss.c` (void return). -/
def uGnssSetAtPinPwr (st : GnssState) (h : Nat) (pin : Int) : GnssState :=
  match st.gUGnssPrivateMutex with
  | none => st
  | some _ =>
    let newList := updateInstance st.gpUGnssPrivateInstanceList h
      (fun i => { i with atModulePinPwr := pin })
    { st with gpUGnssPrivateInstanceList := newList }

/-- `uGnssSetAtPinDataReady` from `u_gnss.c` (void return). -/
def uGnssSetAtPinDataReady (st : GnssState) (h : Nat) (pin : Int) : GnssState :=
  match st.gUGnssPrivateMutex with
  | none => st
  | some _ =>
    let newList := updateInstance st.gpUGnssPrivateInstanceList h
      (fun i => { i with atModulePinDataReady := pin })
    { st with gpUGnssPrivateInstanceList := newList }

/-- `uGnssGetTimeout` from `u_gnss.c`. -/
def uGnssGetTimeout (st : GnssState) (h : Nat) : Int :=
  match st.gUGnssPrivateMutex with
  | none => U_ERROR_COMMON_NOT_INITIALISED
  | some _ =>
    match pUGnssPrivateGetInstance st h with
    | none => U_ERROR_COMMON_INVALID_PARAMETER
    | some inst => inst.timeoutMs

/-- `uGnssSetTimeout` from `u_gnss.c` (void return). -/
def uGnssSetTimeout (st : GnssState) (h : Nat) (timeoutMs : Int) : GnssState :=
  match st.gUGnssPrivateMutex with
  | none => st
  | some _ =>
    let newList := updateInstance st.gpUGnssPrivateInstanceList h
      (fun i => { i with timeoutMs := timeoutMs })
    { st with gpUGnssPrivateInstanceList := newList }

/-- `uGnssGetUbxMessagePrint` from `u_gnss.c`: a `bool` return, `false` both
for an unknown handle and for an uninitialised registry. -/
def uGnssGetUbxMessagePrint (st : GnssState) (h : Nat) : Bool :=
  match st.gUGnssPrivateMutex with
  | none => false
  | some _ =>
    match pUGnssPrivateGetInstance st h with
    | none => false
    | some inst => inst.printUbxMessages

/-- `uGnssSetUbxMessagePrint` from `u_gnss.c` (void return). -/
def uGnssSetUbxMessagePrint (st : GnssState) (h : Nat) (onNotOff : Bool) : GnssState :=
  match st.gUGnssPrivateMutex with
  | none => st
  | some _ =>
    let newList := updateInstance st.gpUGnssPrivateInstanceList h
      (fun i => { i with printUbxMessages := onNotOff })
    { st with gpUGnssPrivateInstanceList := newList }

/- ------------------------------------------------------------------
UBX send-receive transaction (spec-modelled).
------------------------------------------------------------------ -/

/-- A ubx protocol frame: message class, message id and an opaque body. -/
structure UbxFrame where
  messageClass : Int
  messageId : Int
  body : List Nat
deriving DecidableEq, Repr

/-- Modelled from the spec: the transport underneath a send/receive
transaction (`u_gnss_private.c` is not under the sources).  `sendOk` is
whether the write of the request frame succeeds; `frames` is the stream of
frames subsequently readable, each with its arrival time in milliseconds,
in arrival order. -/
structure UbxTransport where
  sendOk : Bool
  frames : List (Nat × UbxFrame)
deriving DecidableEq, Repr

/-- Modelled from the spec: the receive scan — discard frames that do not
match the expected class+id, stop at the first matching frame, and fail once
the timeout clock is exhausted (a frame arriving after the timeout is never
seen). -/
def findUbxResponse : List (Nat × UbxFrame) → Int → Int → Int → Option UbxFrame
  | [], _, _, _ => none
  | (t, f) :: rest, timeoutMs, cls, mid =>
    if (t : Int) ≤ timeoutMs then
      if f.messageClass = cls ∧ f.messageId = mid then some f
      else findUbxResponse rest timeoutMs cls mid
    else none

/-- Modelled from the spec: `uGnssPrivateReceiveOnlyStreamUbxMessage`
(implementation in `u_gnss_private.c`, not under the sources) — wait up to the
instance's timeout for a frame of the expected class+id and return the number
of bytes copied into the caller's buffer (truncated to its capacity), else a
timeout error. -/
def uGnssPrivateReceiveOnlyStreamUbxMessage (t : UbxTransport) (inst : UGnssPrivateInstance)
    (messageClass messageId : Int) (maxBodyLengthBytes : Nat) : Int :=
  match findUbxResponse t.frames inst.timeoutMs messageClass messageId with
  | some f => ((min f.body.length maxBodyLengthBytes : Nat) : Int)
  | none => U_ERROR_COMMON_TIMEOUT

/-- Modelled from the spec: `uGnssPrivateSendReceiveUbxMessage`
(implementation in `u_gnss_private.c`, not under the sources) — send-only
followed by receive-only for the expected response class+id; returns the FULL
response body length as received from the device, irrespective of
`maxResponseBodyLengthBytes`, else a timeout error when no matching frame
arrives within the instance's timeout, or a transport error when the send
fails. -/
def uGnssPrivateSendReceiveUbxMessage (t : UbxTransport) (inst : UGnssPrivateInstance)
    (messageClass messageId : Int) (maxResponseBodyLengthBytes : Nat) : Int :=
  if t.sendOk = false then U_ERROR_COMMON_PLATFORM
  else
    match findUbxResponse t.frames inst.timeoutMs messageClass messageId with
    | some f => (f.body.length : Int)
    | none => U_ERROR_COMMON_TIMEOUT

/- ------------------------------------------------------------------
Concrete fixtures used by closed theorems.
------------------------------------------------------------------ -/

/-- The events of the full per-instance teardown of every listed instance, in
list order (the effect of the `uGnssDeinit` drain loop). -/
def teardownAll : List UGnssPrivateInstance → List Event
  | [] => []
  | i :: rest => instTeardownEvents i ++ teardownAll rest

/-- An initialised, empty registry (registry mutex id 0). -/
def stEmptyInit : GnssState :=
  { gUGnssPrivateMutex := some 0, gpUGnssPrivateInstanceList := [],
    devInstances := [], mutexes := [0], allocs := [], nextId := 1 }

/-- Platform outcomes where every call succeeds. -/
def envOk : AddEnv :=
  { devCreateOk := true, mallocOk := true, mutexCreateErr := 0,
    gpioSetErr := 0, gpioConfigErr := 0 }

/-- A UART transport identity (UART handle 7). -/
def thUart7 : UGnssTransportHandle := { uart := 7, i2c := 0, pAt := 0 }

/-- The registry after one successful `uGnssAdd` of a ubx-UART instance on
UART 7 with no enable-power pin. -/
def stUbxUart7 : GnssState :=
  (uGnssAdd envOk none stEmptyInit 0 U_GNSS_TRANSPORT_UBX_UART thUart7 (-1) false).state

/-- The single instance living in `stUbxUart7` (handle 1; the stored pin is
`-1 & ~0x8000 = -32769` and the on-state 0 because on a C int the flag bit of
`-1` is set). -/
def instUart7 : UGnssPrivateInstance :=
  mkGnssInstance 1 2 3 0 U_GNSS_TRANSPORT_UBX_UART thUart7 (-32769) 0

/-- A transport for the send-receive model: the send succeeds and one frame of
class 6, id 2, with a 3-byte body arrives at 3 ms. -/
def tW : UbxTransport :=
  { sendOk := true,
    frames := [(3, { messageClass := 6, messageId := 2, body := [9, 9, 9] })] }

/- ------------------------------------------------------------------
Helper lemmas about the lookup and list operations.
------------------------------------------------------------------ -/

theorem findInstance_none_of_forall {l : List UGnssPrivateInstance} {h : Nat}
    (hall : ∀ i ∈ l, i.gnssHandle ≠ h) : findInstance l h = none := by
  induction l with
  | nil => rfl
  | cons i rest ih =>
    unfold findInstance
    rw [if_neg (hall i (List.mem_cons_self i rest))]
    exact ih fun j hj => hall j (List.mem_cons_of_mem i hj)

theorem findInstance_handle {l : List UGnssPrivateInstance} {h : Nat}
    {inst : UGnssPrivateInstance} (hf : findInstance l h = some inst) :
    inst.gnssHandle = h := by
  induction l with
  | nil => simp [findInstance] at hf
  | cons i rest ih =>
    unfold findInstance at hf
    by_cases hi : i.gnssHandle = h
    · rw [if_pos hi] at hf
      injection hf with he
      rw [← he]
      exact hi
    · rw [if_neg hi] at hf
      exact ih hf

theorem updateInstance_of_none {l : List UGnssPrivateInstance} {h : Nat}
    {f : UGnssPrivateInstance → UGnssPrivateInstance}
    (hf : findInstance l h = none) : updateInstance l h f = l := by
  induction l with
  | nil => rfl
  | cons i rest ih =>
    unfold findInstance at hf
    unfold updateInstance
    by_cases hi : i.gnssHandle = h
    · rw [if_pos hi] at hf
      exact absurd hf (by simp)
    · rw [if_neg hi] at hf
      rw [if_neg hi, ih hf]

theorem findInstance_update {l : List UGnssPrivateInstance} {h : Nat}
    {f : UGnssPrivateInstance → UGnssPrivateInstance} {inst : UGnssPrivateInstance}
    (hf : findInstance l h = some inst)
    (hgh : ∀ i, (f i).gnssHandle = i.gnssHandle) :
    findInstance (updateInstance l h f) h = some (f inst) := by
  induction l with
  | nil => simp [findInstance] at hf
  | cons i rest ih =>
    simp only [findInstance] at hf
    simp only [updateInstance]
    by_cases hi : i.gnssHandle = h
    · rw [if_pos hi] at hf
      injection hf with he
      subst he
      rw [if_pos hi]
      simp only [findInstance]
      rw [if_pos (by rw [hgh]; exact hi)]
    · rw [if_neg hi] at hf
      rw [if_neg hi]
      simp only [findInstance]
      rw [if_neg hi]
      exact ih hf

theorem findInstance_remove {l : List UGnssPrivateInstance} {h : Nat}
    {inst : UGnssPrivateInstance} (hf : findInstance l h = some inst)
    (hnd : (l.map fun i => i.gnssHandle).Nodup) :
    findInstance (removeInstance l h) h = none := by
  induction l with
  | nil => simp [findInstance] at hf
  | cons i rest ih =>
    rw [List.map_cons] at hnd
    have hnd' := List.nodup_cons.mp hnd
    unfold findInstance at hf
    unfold removeInstance
    by_cases hi : i.gnssHandle = h
    · rw [if_pos hi]
      apply findInstance_none_of_forall
      intro j hj hjh
      exact hnd'.1 (by rw [hi, ← hjh]; exact List.mem_map_of_mem _ hj)
    · rw [if_neg hi] at hf
      rw [if_neg hi]
      unfold findInstance
      rw [if_neg hi]
      exact ih hf hnd'.2

theorem gnssPinSetup_ok (env : AddEnv) (ov : Option UPortGpioDriveMode)
    (pinArg : Int) (lpa : Bool)
    (hset : env.gpioSetErr = 0) (hcfg : env.gpioConfigErr = 0) :
    gnssPinSetup env ov pinArg lpa = (0, pinEvents ov pinArg lpa) := by
  unfold gnssPinSetup pinEvents
  by_cases hpin : 0 ≤ pinCleared pinArg
  · by_cases hlpa : lpa = false <;> simp [hpin, hlpa, hset, hcfg]
  · simp [hpin]

/-- The success path of `uGnssAdd`: with the registry initialised, every
platform call succeeding and the parameter check passing, `uGnssAdd` returns
success, writes the handle of the freshly created device instance, links the
filled-in instance at the head of the list, registers the three new resources
and performs exactly the successful pin-setup GPIO calls. -/
theorem uGnssAdd_ok (env : AddEnv) (ov : Option UPortGpioDriveMode) (st : GnssState)
    (mt : Nat) (tt : Int) (th : UGnssTransportHandle) (pin : Int) (lpa : Bool) (m : Nat)
    (hm : st.gUGnssPrivateMutex = some m)
    (hdev : env.devCreateOk = true) (hmal : env.mallocOk = true)
    (hmux : env.mutexCreateErr = 0) (hset : env.gpioSetErr = 0) (hcfg : env.gpioConfigErr = 0)
    (hok : uGnssAddParamsOk st.gpUGnssPrivateInstanceList mt tt th) :
    uGnssAdd env ov st mt tt th pin lpa =
      { code := U_ERROR_COMMON_SUCCESS
        handle := some st.nextId
        state :=
          { gUGnssPrivateMutex := st.gUGnssPrivateMutex
            gpUGnssPrivateInstanceList :=
              mkGnssInstance st.nextId (st.nextId + 1) (st.nextId + 2) mt tt th
                (pinCleared pin) (onStateOf pin) :: st.gpUGnssPrivateInstanceList
            devInstances := st.devInstances ++ [st.nextId]
            mutexes := st.mutexes ++ [st.nextId + 2]
            allocs := st.allocs ++ [st.nextId + 1]
            nextId := st.nextId + 3 }
        events := pinEvents ov pin lpa } := by
  have hps := gnssPinSetup_ok env ov pin lpa hset hcfg
  simp only [uGnssAdd, hm, hdev, hmal, hmux, hps]
  simp [hok]

/- ------------------------------------------------------------------
Claim theorems.
------------------------------------------------------------------ -/

/-- Claim C1: evaluation of `uGnssAdd` at a concrete failing input (an
enable-power pin whose `uPortGpioSet` fails with error 7, everything else
succeeding, starting from an initialised empty registry).  The code deletes
the transport mutex and frees the instance memory, BUT returns
`U_ERROR_COMMON_SUCCESS` (0, the value `errorCodeOrHandle` still holds from
the successful `uPortMutexCreate`), never writes the output handle, and never
destroys the uDevice instance (id 1), which stays live: the rollback claimed
by the spec does not happen on this path. -/
theorem uGnssAdd_gpio_failure_leaks :
    (uGnssAdd { devCreateOk := true, mallocOk := true, mutexCreateErr := 0,
                gpioSetErr := 7, gpioConfigErr := 0 }
       none stEmptyInit 0 U_GNSS_TRANSPORT_UBX_UART thUart7 5 false).code
        = U_ERROR_COMMON_SUCCESS ∧
    (uGnssAdd { devCreateOk := true, mallocOk := true, mutexCreateErr := 0,
                gpioSetErr := 7, gpioConfigErr := 0 }
       none stEmptyInit 0 U_GNSS_TRANSPORT_UBX_UART thUart7 5 false).handle = none ∧
    (uGnssAdd { devCreateOk := true, mallocOk := true, mutexCreateErr := 0,
                gpioSetErr := 7, gpioConfigErr := 0 }
       none stEmptyInit 0 U_GNSS_TRANSPORT_UBX_UART thUart7 5 false).state.gpUGnssPrivateInstanceList
        = [] ∧
    (uGnssAdd { devCreateOk := true, mallocOk := true, mutexCreateErr := 0,
                gpioSetErr := 7, gpioConfigErr := 0 }
       none stEmptyInit 0 U_GNSS_TRANSPORT_UBX_UART thUart7 5 false).state.devInstances = [1] ∧
    (uGnssAdd { devCreateOk := true, mallocOk := true, mutexCreateErr := 0,
                gpioSetErr := 7, gpioConfigErr := 0 }
       none stEmptyInit 0 U_GNSS_TRANSPORT_UBX_UART thUart7 5 false).events
        = [Event.gpioSet 5 0, Event.mutexDelete 3, Event.freeInstance 2] := by
  decide

/-- Claim C2, counterexample: with a live ubx-UART instance bound to UART
identity 7, a second `uGnssAdd` in the SAME transport kind family (UART) but
with the other framing — NMEA-UART — and the same identity 7 does NOT fail
with InvalidArgument: it succeeds and links a second instance, because the
duplicate check of `pGetGnssInstanceTransportHandle` first requires the
`transportType` fields to be identical. -/
theorem uGnssAdd_same_family_identity_not_rejected :
    (pGetGnssInstanceTransportHandle stUbxUart7.gpUGnssPrivateInstanceList
       U_GNSS_TRANSPORT_UBX_UART thUart7).isSome = true ∧
    (uGnssAdd envOk none stUbxUart7 0 U_GNSS_TRANSPORT_NMEA_UART thUart7 (-1) false).code
      = U_ERROR_COMMON_SUCCESS ∧
    (uGnssAdd envOk none stUbxUart7 0 U_GNSS_TRANSPORT_NMEA_UART thUart7 (-1) false).code
      ≠ U_ERROR_COMMON_INVALID_PARAMETER ∧
    (uGnssAdd envOk none stUbxUart7 0 U_GNSS_TRANSPORT_NMEA_UART thUart7 (-1)
       false).state.gpUGnssPrivateInstanceList.length = 2 := by
  decide

/-- Claim C2 (amended): a second `uGnssAdd` with the same EXACT transport type
(not merely the same family) and the same identity, while the first instance
is live, fails with InvalidArgument, writes no handle and adds nothing; for
the I2C transport types the duplicate-identity check is skipped, so the add
succeeds even when the identity is already bound. -/
theorem uGnssAdd_duplicate_identity (env : AddEnv) (ov : Option UPortGpioDriveMode)
    (st : GnssState) (mt : Nat) (tt : Int) (th : UGnssTransportHandle)
    (pin : Int) (lpa : Bool) (m : Nat)
    (hm : st.gUGnssPrivateMutex = some m)
    (hdev : env.devCreateOk = true) (hmal : env.mallocOk = true)
    (hmux : env.mutexCreateErr = 0) (hset : env.gpioSetErr = 0) (hcfg : env.gpioConfigErr = 0)
    (hmt : mt < gUGnssPrivateModuleListSize) :
    (tt ≠ U_GNSS_TRANSPORT_UBX_I2C → tt ≠ U_GNSS_TRANSPORT_NMEA_I2C →
       (pGetGnssInstanceTransportHandle st.gpUGnssPrivateInstanceList tt th).isSome = true →
       (uGnssAdd env ov st mt tt th pin lpa).code = U_ERROR_COMMON_INVALID_PARAMETER ∧
       (uGnssAdd env ov st mt tt th pin lpa).handle = none ∧
       (uGnssAdd env ov st mt tt th pin lpa).state.gpUGnssPrivateInstanceList
         = st.gpUGnssPrivateInstanceList) ∧
    ((tt = U_GNSS_TRANSPORT_UBX_I2C ∨ tt = U_GNSS_TRANSPORT_NMEA_I2C) →
       (uGnssAdd env ov st mt tt th pin lpa).code = U_ERROR_COMMON_SUCCESS) := by
  constructor
  · intro hne4 hne5 hsome
    have hnotok : ¬ uGnssAddParamsOk st.gpUGnssPrivateInstanceList mt tt th := by
      rintro ⟨-, -, h4 | h5 | hnone⟩
      · exact hne4 h4
      · exact hne5 h5
      · rw [hnone] at hsome
        simp at hsome
    simp only [uGnssAdd, hm, hdev]
    simp [hnotok]
  · rintro (h4 | h5)
    · subst h4
      rw [uGnssAdd_ok env ov st mt U_GNSS_TRANSPORT_UBX_I2C th pin lpa m hm hdev hmal hmux hset
            hcfg ⟨hmt, ⟨by decide, by decide⟩, Or.inl rfl⟩]
    · subst h5
      rw [uGnssAdd_ok env ov st mt U_GNSS_TRANSPORT_NMEA_I2C th pin lpa m hm hdev hmal hmux hset
            hcfg ⟨hmt, ⟨by decide, by decide⟩, Or.inr (Or.inl rfl)⟩]

/-- Witness for C2: concrete duplicate — `stUbxUart7` holds UART identity 7 on
the ubx-UART type; adding the identical type and identity fails with
InvalidArgument. -/
theorem uGnssAdd_duplicate_identity_witness :
    (pGetGnssInstanceTransportHandle stUbxUart7.gpUGnssPrivateInstanceList
       U_GNSS_TRANSPORT_UBX_UART thUart7).isSome = true ∧
    (uGnssAdd envOk none stUbxUart7 0 U_GNSS_TRANSPORT_UBX_UART thUart7 (-1) false).code
      = U_ERROR_COMMON_INVALID_PARAMETER := by
  refine ⟨by decide, ?_⟩
  exact ((uGnssAdd_duplicate_identity envOk none stUbxUart7 0 U_GNSS_TRANSPORT_UBX_UART thUart7
    (-1) false 0 rfl rfl rfl rfl rfl rfl (by decide)).1 (by decide) (by decide) (by decide)).1

/-- Claim C3: for a valid module type, a transport type strictly between NONE
and MAX_NUM and an identity free in the sense of the code's check (I2C kinds
are exempt), with the registry initialised and every platform call
succeeding, `uGnssAdd` succeeds, links the new instance at the head of the
registry list, returns its handle, and a lookup by that handle yields exactly
that instance. -/
theorem uGnssAdd_success_links_head_and_find (env : AddEnv) (ov : Option UPortGpioDriveMode)
    (st : GnssState) (mt : Nat) (tt : Int) (th : UGnssTransportHandle)
    (pin : Int) (lpa : Bool) (m : Nat)
    (hm : st.gUGnssPrivateMutex = some m)
    (hdev : env.devCreateOk = true) (hmal : env.mallocOk = true)
    (hmux : env.mutexCreateErr = 0) (hset : env.gpioSetErr = 0) (hcfg : env.gpioConfigErr = 0)
    (hmt : mt < gUGnssPrivateModuleListSize)
    (h1 : U_GNSS_TRANSPORT_NONE < tt) (h2 : tt < U_GNSS_TRANSPORT_MAX_NUM)
    (hid : tt = U_GNSS_TRANSPORT_UBX_I2C ∨ tt = U_GNSS_TRANSPORT_NMEA_I2C ∨
           pGetGnssInstanceTransportHandle st.gpUGnssPrivateInstanceList tt th = none) :
    (uGnssAdd env ov st mt tt th pin lpa).code = U_ERROR_COMMON_SUCCESS ∧
    (uGnssAdd env ov st mt tt th pin lpa).handle = some st.nextId ∧
    (uGnssAdd env ov st mt tt th pin lpa).state.gpUGnssPrivateInstanceList
      = mkGnssInstance st.nextId (st.nextId + 1) (st.nextId + 2) mt tt th
          (pinCleared pin) (onStateOf pin) :: st.gpUGnssPrivateInstanceList ∧
    pUGnssPrivateGetInstance (uGnssAdd env ov st mt tt th pin lpa).state st.nextId
      = some (mkGnssInstance st.nextId (st.nextId + 1) (st.nextId + 2) mt tt th
          (pinCleared pin) (onStateOf pin)) := by
  rw [uGnssAdd_ok env ov st mt tt th pin lpa m hm hdev hmal hmux hset hcfg
        ⟨hmt, ⟨h1, h2⟩, hid⟩]
  refine ⟨rfl, rfl, rfl, ?_⟩
  simp [pUGnssPrivateGetInstance, findInstance, mkGnssInstance]

/-- Witness for C3: a concrete successful add on the initialised empty
registry, whose handle is 1 and whose lookup returns the new head. -/
theorem uGnssAdd_success_links_head_and_find_witness :
    stEmptyInit.gUGnssPrivateMutex = some 0 ∧
    (uGnssAdd envOk none stEmptyInit 0 U_GNSS_TRANSPORT_UBX_UART thUart7 5 false).code
      = U_ERROR_COMMON_SUCCESS ∧
    (uGnssAdd envOk none stEmptyInit 0 U_GNSS_TRANSPORT_UBX_UART thUart7 5 false).handle
      = some 1 := by
  have hsp := uGnssAdd_success_links_head_and_find envOk none stEmptyInit 0
    U_GNSS_TRANSPORT_UBX_UART thUart7 5 false 0 rfl rfl rfl rfl rfl rfl
    (by decide) (by decide) (by decide) (Or.inr (Or.inr (by decide)))
  exact ⟨rfl, hsp.1, hsp.2.1⟩

/-- Claim C4: `uGnssRemove` is a no-op when no live instance has the handle;
when an instance is found, it performs — in this order — the position-task
stop, the transport-mutex deletion, the device-instance release, the unlink
and the free (the event list of `instTeardownEvents`), after which a lookup by
that handle fails and, provided the removed binding was the only one for that
type and identity, a new `uGnssAdd` with the same transport type and identity
succeeds. -/
theorem uGnssRemove_spec (st : GnssState) (h : Nat) (m : Nat)
    (hm : st.gUGnssPrivateMutex = some m)
    (hnd : (st.gpUGnssPrivateInstanceList.map fun i => i.gnssHandle).Nodup) :
    (pUGnssPrivateGetInstance st h = none → uGnssRemove st h = (st, [])) ∧
    (∀ inst, pUGnssPrivateGetInstance st h = some inst →
       (uGnssRemove st h).2 = instTeardownEvents inst ∧
       (uGnssRemove st h).1.gpUGnssPrivateInstanceList
         = removeInstance st.gpUGnssPrivateInstanceList h ∧
       pUGnssPrivateGetInstance (uGnssRemove st h).1 h = none ∧
       (∀ env ov mt pin lpa,
          env.devCreateOk = true → env.mallocOk = true → env.mutexCreateErr = 0 →
          env.gpioSetErr = 0 → env.gpioConfigErr = 0 →
          mt < gUGnssPrivateModuleListSize →
          U_GNSS_TRANSPORT_NONE < inst.transportType →
          inst.transportType < U_GNSS_TRANSPORT_MAX_NUM →
          pGetGnssInstanceTransportHandle (uGnssRemove st h).1.gpUGnssPrivateInstanceList
            inst.transportType inst.transportHandle = none →
          (uGnssAdd env ov (uGnssRemove st h).1 mt inst.transportType inst.transportHandle
             pin lpa).code = U_ERROR_COMMON_SUCCESS)) := by
  constructor
  · intro hf
    simp [uGnssRemove, hm, hf]
  · intro inst hf
    have hf2 : findInstance st.gpUGnssPrivateInstanceList h = some inst := hf
    have hh := findInstance_handle hf2
    have hrem : uGnssRemove st h = deleteGnssInstance st inst := by
      simp [uGnssRemove, hm, hf]
    rw [hrem]
    refine ⟨rfl, ?_, ?_, ?_⟩
    · simp [deleteGnssInstance, hh]
    · simp only [deleteGnssInstance, pUGnssPrivateGetInstance]
      rw [hh]
      exact findInstance_remove hf hnd
    · intro env ov mt pin lpa hdev hmal hmux hset hcfg hmt h1 h2 hfree
      have hm' : (deleteGnssInstance st inst).1.gUGnssPrivateMutex = some m := by
        simp [deleteGnssInstance, hm]
      rw [uGnssAdd_ok env ov (deleteGnssInstance st inst).1 mt inst.transportType
            inst.transportHandle pin lpa m hm' hdev hmal hmux hset hcfg
            ⟨hmt, ⟨h1, h2⟩, Or.inr (Or.inr (by rw [← hrem]; exact (by rw [hrem]; exact hfree)))⟩]

/-- Witness for C4: removing the single instance of `stUbxUart7` produces the
ordered teardown events, makes the handle unfindable, and a re-add of the same
type and identity succeeds. -/
theorem uGnssRemove_spec_witness :
    (stUbxUart7.gpUGnssPrivateInstanceList.map fun i => i.gnssHandle).Nodup ∧
    (uGnssRemove stUbxUart7 1).2 = instTeardownEvents instUart7 ∧
    pUGnssPrivateGetInstance (uGnssRemove stUbxUart7 1).1 1 = none ∧
    (uGnssAdd envOk none (uGnssRemove stUbxUart7 1).1 0 instUart7.transportType
       instUart7.transportHandle (-1) false).code = U_ERROR_COMMON_SUCCESS := by
  have hsp := (uGnssRemove_spec stUbxUart7 1 0 rfl (by decide)).2 instUart7 (by decide)
  refine ⟨by decide, hsp.1, hsp.2.2.1, ?_⟩
  exact hsp.2.2.2 envOk none 0 (-1) false rfl rfl rfl rfl rfl (by decide) (by decide)
    (by decide) (by decide)

/-- Claim C5, counterexample: on the live instance with handle 1 (I2C address
0x42), setting the I2C address to 65537 (positive) reports success, but a
subsequent get returns 1, not 65537 — the `uint16_t` field truncates the
stored value modulo 2^16. -/
theorem uGnssSetI2cAddress_truncation_counterexample :
    (uGnssSetI2cAddress stUbxUart7 1 65537).1 = U_ERROR_COMMON_SUCCESS ∧
    uGnssGetI2cAddress (uGnssSetI2cAddress stUbxUart7 1 65537).2 1 = 1 ∧
    uGnssGetI2cAddress (uGnssSetI2cAddress stUbxUart7 1 65537).2 1 ≠ 65537 := by
  decide

/-- Claim C5 (amended): on a live instance, setting a non-positive I2C address
fails with InvalidArgument and leaves the stored address unchanged; setting a
positive value v succeeds and a subsequent get returns v reduced modulo 2^16
(equal to v whenever v ≤ 65535). -/
theorem uGnssSetI2cAddress_spec (st : GnssState) (h : Nat) (m : Nat) (v : Int)
    (inst : UGnssPrivateInstance)
    (hm : st.gUGnssPrivateMutex = some m)
    (hf : pUGnssPrivateGetInstance st h = some inst) :
    (v ≤ 0 →
       uGnssSetI2cAddress st h v = (U_ERROR_COMMON_INVALID_PARAMETER, st) ∧
       uGnssGetI2cAddress (uGnssSetI2cAddress st h v).2 h = (inst.i2cAddress : Int)) ∧
    (0 < v →
       (uGnssSetI2cAddress st h v).1 = U_ERROR_COMMON_SUCCESS ∧
       uGnssGetI2cAddress (uGnssSetI2cAddress st h v).2 h = ((v.toNat % 65536 : Nat) : Int)) := by
  constructor
  · intro hv
    have hset : uGnssSetI2cAddress st h v = (U_ERROR_COMMON_INVALID_PARAMETER, st) := by
      simp [uGnssSetI2cAddress, hm, hf, not_lt.mpr hv]
    refine ⟨hset, ?_⟩
    rw [hset]
    simp [uGnssGetI2cAddress, hm, hf]
  · intro hv
    have hset : uGnssSetI2cAddress st h v =
        (U_ERROR_COMMON_SUCCESS,
         { st with gpUGnssPrivateInstanceList := updateInstance st.gpUGnssPrivateInstanceList h (fun i => { i with i2cAddress := v.toNat % 65536 }) }) := by
      simp [uGnssSetI2cAddress, hm, hf, hv]
    refine ⟨by rw [hset], ?_⟩
    rw [hset]
    have hf2 : findInstance st.gpUGnssPrivateInstanceList h = some inst := hf
    have hfind := findInstance_update (f := fun i => { i with i2cAddress := v.toNat % 65536 })
      hf2 (fun i => rfl)
    simp [uGnssGetI2cAddress, pUGnssPrivateGetInstance, hm, hfind]

/-- Witness for C5: set 70 on the live handle 1, then get returns 70. -/
theorem uGnssSetI2cAddress_spec_witness :
    pUGnssPrivateGetInstance stUbxUart7 1 = some instUart7 ∧
    (uGnssSetI2cAddress stUbxUart7 1 70).1 = U_ERROR_COMMON_SUCCESS ∧
    uGnssGetI2cAddress (uGnssSetI2cAddress stUbxUart7 1 70).2 1
      = (((70 : Int).toNat % 65536 : Nat) : Int) := by
  have hsp := (uGnssSetI2cAddress_spec stUbxUart7 1 0 70 instUart7 rfl (by decide)).2 (by decide)
  exact ⟨by decide, hsp.1, hsp.2⟩

/-- Claim C6, counterexample: `uGnssGetUbxMessagePrint` is a value-returning
accessor (it returns the flag), yet on an unknown handle it does not — and
cannot — return an invalid-argument error: its return type is `bool` and it
returns `false`. -/
theorem uGnssGetUbxMessagePrint_unknown_handle_returns_false :
    pUGnssPrivateGetInstance stEmptyInit 42 = none ∧
    uGnssGetUbxMessagePrint stEmptyInit 42 = false := by
  decide

/-- Claim C6 (amended): on an initialised registry, for a handle with no live
instance, every void-returning setter (timeout, AT power pin, AT data-ready
pin, message-print flag) leaves the whole state unchanged, and the
error-or-value accessors (get timeout, get I2C address, get transport handle,
set I2C address) return InvalidArgument — while the boolean message-print
getter returns `false`. -/
theorem uGnssUnknownHandle_spec (st : GnssState) (h : Nat) (m : Nat)
    (hm : st.gUGnssPrivateMutex = some m)
    (hf : pUGnssPrivateGetInstance st h = none) :
    (∀ t, uGnssSetTimeout st h t = st) ∧
    (∀ p, uGnssSetAtPinPwr st h p = st) ∧
    (∀ p, uGnssSetAtPinDataReady st h p = st) ∧
    (∀ b, uGnssSetUbxMessagePrint st h b = st) ∧
    uGnssGetTimeout st h = U_ERROR_COMMON_INVALID_PARAMETER ∧
    uGnssGetI2cAddress st h = U_ERROR_COMMON_INVALID_PARAMETER ∧
    uGnssGetTransportHandle st h = (U_ERROR_COMMON_INVALID_PARAMETER, none) ∧
    (∀ v, uGnssSetI2cAddress st h v = (U_ERROR_COMMON_INVALID_PARAMETER, st)) ∧
    uGnssGetUbxMessagePrint st h = false := by
  have hf' : findInstance st.gpUGnssPrivateInstanceList h = none := hf
  refine ⟨?_, ?_, ?_, ?_, ?_, ?_, ?_, ?_, ?_⟩
  · intro t
    simp [uGnssSetTimeout, hm, updateInstance_of_none hf']
    rw [← hm]
  · intro p
    simp [uGnssSetAtPinPwr, hm, updateInstance_of_none hf']
    rw [← hm]
  · intro p
    simp [uGnssSetAtPinDataReady, hm, updateInstance_of_none hf']
    rw [← hm]
  · intro b
    simp [uGnssSetUbxMessagePrint, hm, updateInstance_of_none hf']
    rw [← hm]
  · simp [uGnssGetTimeout, hm, hf]
  · simp [uGnssGetI2cAddress, hm, hf]
  · simp [uGnssGetTransportHandle, hm, hf]
  · intro v
    simp [uGnssSetI2cAddress, hm, hf]
  · simp [uGnssGetUbxMessagePrint, hm, hf]

/-- Witness for C6: on the initialised registry holding only handle 1, handle
42 is unknown: the timeout setter is a no-op and the timeout getter reports
InvalidArgument. -/
theorem uGnssUnknownHandle_spec_witness :
    pUGnssPrivateGetInstance stUbxUart7 42 = none ∧
    uGnssSetTimeout stUbxUart7 42 123 = stUbxUart7 ∧
    uGnssGetTimeout stUbxUart7 42 = U_ERROR_COMMON_INVALID_PARAMETER := by
  have hsp := uGnssUnknownHandle_spec stUbxUart7 42 0 rfl (by decide)
  exact ⟨by decide, hsp.1 123, hsp.2.2.2.2.1⟩

/-- Claim C7, counterexample: with `leavePowerAlone` set and a connected
enable-power pin (pin 5), `uGnssAdd` does not drive the pin but it DOES
configure it (`uPortGpioConfig` is outside the `!leavePowerAlone` guard in the
C): the add succeeds with exactly one GPIO-configure call. -/
theorem uGnssAdd_leavePowerAlone_still_configures :
    (uGnssAdd envOk none stEmptyInit 0 U_GNSS_TRANSPORT_UBX_UART thUart7 5 true).code
      = U_ERROR_COMMON_SUCCESS ∧
    (uGnssAdd envOk none stEmptyInit 0 U_GNSS_TRANSPORT_UBX_UART thUart7 5 true).events
      = [Event.gpioConfig 5 UPortGpioDriveMode.normal] := by
  decide

/-- Claim C7 (amended): on a successful `uGnssAdd`, the stored on-level is the
default on-state inverted exactly when the flag bit is set in the pin
argument, the stored pin number is the argument with that bit cleared; absent
a static override the configured drive mode is normal when the computed
on-level is 1 and open-drain otherwise, and with an override it is the
override; and when `leavePowerAlone` is set the pin is never driven
(`uPortGpioSet` is not called) but it IS still configured. -/
theorem uGnssAdd_pin_policy (env : AddEnv) (ov : Option UPortGpioDriveMode)
    (st : GnssState) (mt : Nat) (tt : Int) (th : UGnssTransportHandle)
    (pin : Int) (lpa : Bool) (m : Nat)
    (hm : st.gUGnssPrivateMutex = some m)
    (hdev : env.devCreateOk = true) (hmal : env.mallocOk = true)
    (hmux : env.mutexCreateErr = 0) (hset : env.gpioSetErr = 0) (hcfg : env.gpioConfigErr = 0)
    (hmt : mt < gUGnssPrivateModuleListSize)
    (h1 : U_GNSS_TRANSPORT_NONE < tt) (h2 : tt < U_GNSS_TRANSPORT_MAX_NUM)
    (hid : tt = U_GNSS_TRANSPORT_UBX_I2C ∨ tt = U_GNSS_TRANSPORT_NMEA_I2C ∨
           pGetGnssInstanceTransportHandle st.gpUGnssPrivateInstanceList tt th = none) :
    (∀ inst,
       (uGnssAdd env ov st mt tt th pin lpa).state.gpUGnssPrivateInstanceList.head? = some inst →
       inst.pinGnssEnablePower = pinCleared pin ∧
       inst.pinGnssEnablePowerOnState =
         (if pinInvertedFlag pin then cNot U_GNSS_PIN_ENABLE_POWER_ON_STATE
          else U_GNSS_PIN_ENABLE_POWER_ON_STATE)) ∧
    (ov = none → 0 ≤ pinCleared pin →
       Event.gpioConfig (pinCleared pin)
         (if onStateOf pin = 1 then UPortGpioDriveMode.normal else UPortGpioDriveMode.openDrain)
         ∈ (uGnssAdd env ov st mt tt th pin lpa).events) ∧
    (∀ dm, ov = some dm → 0 ≤ pinCleared pin →
       Event.gpioConfig (pinCleared pin) dm ∈ (uGnssAdd env ov st mt tt th pin lpa).events) ∧
    (lpa = true →
       (∀ lvl, Event.gpioSet (pinCleared pin) lvl ∉ (uGnssAdd env ov st mt tt th pin lpa).events) ∧
       (0 ≤ pinCleared pin →
          (uGnssAdd env ov st mt tt th pin lpa).events
            = [Event.gpioConfig (pinCleared pin) (driveModeOf ov pin)])) := by
  rw [uGnssAdd_ok env ov st mt tt th pin lpa m hm hdev hmal hmux hset hcfg ⟨hmt, ⟨h1, h2⟩, hid⟩]
  refine ⟨?_, ?_, ?_, ?_⟩
  · intro inst hinst
    simp only [List.head?_cons] at hinst
    injection hinst with he
    subst he
    exact ⟨rfl, rfl⟩
  · intro hov hpin
    subst hov
    simp [pinEvents, hpin, driveModeOf]
  · intro dm hov hpin
    subst hov
    simp [pinEvents, hpin, driveModeOf]
  · intro hlpa
    subst hlpa
    constructor
    · intro lvl
      by_cases hpin : 0 ≤ pinCleared pin <;> simp [pinEvents, hpin]
    · intro hpin
      simp [pinEvents, hpin]

/-- Witness for C7: pin argument 32773 = 0x8005 (flag bit set, raw pin 5): the
cleared pin is 5, the on-level is inverted to 0 and the configured drive mode
is open-drain. -/
theorem uGnssAdd_pin_policy_witness :
    (0 : Int) ≤ pinCleared 32773 ∧
    Event.gpioConfig (pinCleared 32773)
      (if onStateOf 32773 = 1 then UPortGpioDriveMode.normal else UPortGpioDriveMode.openDrain)
      ∈ (uGnssAdd envOk none stEmptyInit 0 U_GNSS_TRANSPORT_UBX_UART thUart7 32773 false).events := by
  refine ⟨by decide, ?_⟩
  have hsp := uGnssAdd_pin_policy envOk none stEmptyInit 0 U_GNSS_TRANSPORT_UBX_UART thUart7
    32773 false 0 rfl rfl rfl rfl rfl rfl (by decide) (by decide) (by decide)
    (Or.inr (Or.inr (by decide)))
  exact hsp.2.1 rfl (by decide)

theorem uGnssDeinitLoop_spec :
    ∀ (l : List UGnssPrivateInstance) (st : GnssState),
      st.gpUGnssPrivateInstanceList = l →
      (uGnssDeinitLoop l.length st).1.gpUGnssPrivateInstanceList = [] ∧
      (uGnssDeinitLoop l.length st).2 = teardownAll l ∧
      (uGnssDeinitLoop l.length st).1.gUGnssPrivateMutex = st.gUGnssPrivateMutex := by
  intro l
  induction l with
  | nil =>
    intro st hst
    simp [uGnssDeinitLoop, teardownAll, hst]
  | cons i rest ih =>
    intro st hst
    have hst2 : (deleteGnssInstance st i).1.gpUGnssPrivateInstanceList = rest := by
      simp [deleteGnssInstance, hst, removeInstance]
    obtain ⟨ha, hb, hc⟩ := ih (deleteGnssInstance st i).1 hst2
    have hlen : (i :: rest).length = rest.length + 1 := rfl
    rw [hlen]
    simp only [uGnssDeinitLoop, hst]
    refine ⟨ha, ?_, hc⟩
    rw [hb]
    simp [deleteGnssInstance, teardownAll]

/-- Claim C8, counterexample: `uGnssDeinit` on an initialised registry holding
no instances is NOT a no-op: it deletes the guarding mutex (one mutexDelete
call), leaves the registry uninitialised (a subsequent getter reports
NotInitialised rather than succeeding), and — being `void` — reports nothing. -/
theorem uGnssDeinit_empty_not_noop :
    stEmptyInit.gpUGnssPrivateInstanceList = [] ∧
    (uGnssDeinit stEmptyInit).1.gUGnssPrivateMutex = none ∧
    (uGnssDeinit stEmptyInit).2 = [Event.mutexDelete 0] ∧
    (uGnssDeinit stEmptyInit).1 ≠ stEmptyInit ∧
    uGnssGetTimeout (uGnssDeinit stEmptyInit).1 5 = U_ERROR_COMMON_NOT_INITIALISED := by
  decide

/-- Claim C8 (amended): `uGnssDeinit` on an initialised registry performs the
full ordered per-instance teardown of every live instance (none when the
registry is empty), empties the list, destroys the guarding mutex and leaves
the registry uninitialised; afterwards — before a new init — `uGnssAdd` and
the error-or-value accessors fail with NotInitialised, the void-returning
setters, `uGnssRemove` and a further `uGnssDeinit` are no-ops, and the boolean
message-print getter returns `false`. -/
theorem uGnssDeinit_full (st : GnssState) (m : Nat) (hm : st.gUGnssPrivateMutex = some m) :
    (uGnssDeinit st).1.gUGnssPrivateMutex = none ∧
    (uGnssDeinit st).1.gpUGnssPrivateInstanceList = [] ∧
    (uGnssDeinit st).2 = teardownAll st.gpUGnssPrivateInstanceList ++ [Event.mutexDelete m] ∧
    (∀ env ov mt tt th pin lpa,
       (uGnssAdd env ov (uGnssDeinit st).1 mt tt th pin lpa).code
         = U_ERROR_COMMON_NOT_INITIALISED ∧
       (uGnssAdd env ov (uGnssDeinit st).1 mt tt th pin lpa).state = (uGnssDeinit st).1) ∧
    (∀ h, pUGnssPrivateGetInstance (uGnssDeinit st).1 h = none) ∧
    (∀ h, uGnssGetTimeout (uGnssDeinit st).1 h = U_ERROR_COMMON_NOT_INITIALISED) ∧
    (∀ h, uGnssGetI2cAddress (uGnssDeinit st).1 h = U_ERROR_COMMON_NOT_INITIALISED) ∧
    (∀ h v, uGnssSetI2cAddress (uGnssDeinit st).1 h v
       = (U_ERROR_COMMON_NOT_INITIALISED, (uGnssDeinit st).1)) ∧
    (∀ h t, uGnssSetTimeout (uGnssDeinit st).1 h t = (uGnssDeinit st).1) ∧
    (∀ h, uGnssRemove (uGnssDeinit st).1 h = ((uGnssDeinit st).1, [])) ∧
    (∀ h, uGnssGetUbxMessagePrint (uGnssDeinit st).1 h = false) ∧
    (∀ h, uGnssGetTransportHandle (uGnssDeinit st).1 h
       = (U_ERROR_COMMON_NOT_INITIALISED, none)) ∧
    (∀ h p, uGnssSetAtPinPwr (uGnssDeinit st).1 h p = (uGnssDeinit st).1) ∧
    (∀ h p, uGnssSetAtPinDataReady (uGnssDeinit st).1 h p = (uGnssDeinit st).1) ∧
    (∀ h b, uGnssSetUbxMessagePrint (uGnssDeinit st).1 h b = (uGnssDeinit st).1) ∧
    uGnssDeinit (uGnssDeinit st).1 = ((uGnssDeinit st).1, []) := by
  obtain ⟨ha, hb, hc⟩ := uGnssDeinitLoop_spec st.gpUGnssPrivateInstanceList st rfl
  have hnone : (uGnssDeinit st).1.gUGnssPrivateMutex = none := by
    simp [uGnssDeinit, hm]
  have hlist : (uGnssDeinit st).1.gpUGnssPrivateInstanceList = [] := by
    simp only [uGnssDeinit, hm]
    exact ha
  have hev : (uGnssDeinit st).2 = teardownAll st.gpUGnssPrivateInstanceList
      ++ [Event.mutexDelete m] := by
    simp only [uGnssDeinit, hm]
    rw [hb]
  refine ⟨hnone, hlist, hev, ?_, ?_, ?_, ?_, ?_, ?_, ?_, ?_, ?_, ?_, ?_, ?_, ?_⟩
  · intro env ov mt tt th pin lpa
    simp [uGnssAdd, hnone]
  · intro h
    simp [pUGnssPrivateGetInstance, hlist, findInstance]
  · intro h
    simp [uGnssGetTimeout, hnone]
  · intro h
    simp [uGnssGetI2cAddress, hnone]
  · intro h v
    simp [uGnssSetI2cAddress, hnone]
  · intro h t
    simp [uGnssSetTimeout, hnone]
  · intro h
    simp [uGnssRemove, hnone]
  · intro h
    simp [uGnssGetUbxMessagePrint, hnone]
  · intro h
    simp [uGnssGetTransportHandle, hnone]
  · intro h p
    simp [uGnssSetAtPinPwr, hnone]
  · intro h p
    simp [uGnssSetAtPinDataReady, hnone]
  · intro h b
    simp [uGnssSetUbxMessagePrint, hnone]
  · have hgen : ∀ s : GnssState, s.gUGnssPrivateMutex = none → uGnssDeinit s = (s, []) := by
      intro s hs
      simp [uGnssDeinit, hs]
    exact hgen _ hnone

/-- Witness for C8: deinit of the one-instance registry `stUbxUart7` empties
it, emits that instance's ordered teardown followed by the mutex deletion, and
leaves every subsequent getter failing with NotInitialised. -/
theorem uGnssDeinit_full_witness :
    stUbxUart7.gUGnssPrivateMutex = some 0 ∧
    (uGnssDeinit stUbxUart7).1.gUGnssPrivateMutex = none ∧
    (uGnssDeinit stUbxUart7).1.gpUGnssPrivateInstanceList = [] ∧
    (uGnssDeinit stUbxUart7).2
      = teardownAll stUbxUart7.gpUGnssPrivateInstanceList ++ [Event.mutexDelete 0] := by
  have hsp := uGnssDeinit_full stUbxUart7 0 rfl
  exact ⟨rfl, hsp.1, hsp.2.1, hsp.2.2.1⟩

/-- Claim C9: the send-receive transaction (spec-modelled, the implementation
being outside the sources): when the send succeeds and a frame matching the
expected class+id arrives within the instance's timeout, the call returns the
FULL length of that frame's body, for every caller buffer capacity (including
capacities smaller than the body); when no matching frame arrives in time it
returns the timeout error; when the underlying send fails it returns the
transport (platform) error. -/
theorem uGnssPrivateSendReceiveUbxMessage_spec (t : UbxTransport)
    (inst : UGnssPrivateInstance) (cls mid : Int) :
    (t.sendOk = true →
       (∀ f, findUbxResponse t.frames inst.timeoutMs cls mid = some f →
          ∀ cap, uGnssPrivateSendReceiveUbxMessage t inst cls mid cap = (f.body.length : Int)) ∧
       (findUbxResponse t.frames inst.timeoutMs cls mid = none →
          ∀ cap, uGnssPrivateSendReceiveUbxMessage t inst cls mid cap = U_ERROR_COMMON_TIMEOUT)) ∧
    (t.sendOk = false →
       ∀ cap, uGnssPrivateSendReceiveUbxMessage t inst cls mid cap = U_ERROR_COMMON_PLATFORM) := by
  constructor
  · intro hs
    constructor
    · intro f hfr cap
      simp [uGnssPrivateSendReceiveUbxMessage, hs, hfr]
    · intro hfr cap
      simp [uGnssPrivateSendReceiveUbxMessage, hs, hfr]
  · intro hs cap
    simp [uGnssPrivateSendReceiveUbxMessage, hs]

/-- Witness for C9: the 3-byte response of `tW` arrives at 3 ms, well within
the 10000 ms default timeout of `instUart7`; with a caller buffer capacity of
only 1 byte the call still returns 3, the full body length. -/
theorem uGnssPrivateSendReceiveUbxMessage_spec_witness :
    tW.sendOk = true ∧
    findUbxResponse tW.frames instUart7.timeoutMs 6 2
      = some { messageClass := 6, messageId := 2, body := [9, 9, 9] } ∧
    uGnssPrivateSendReceiveUbxMessage tW instUart7 6 2 1 = 3 := by
  refine ⟨rfl, by decide, ?_⟩
  have hsp := ((uGnssPrivateSendReceiveUbxMessage_spec tW instUart7 6 2).1 rfl).1
    { messageClass := 6, messageId := 2, body := [9, 9, 9] } (by decide) 1
  simpa using hsp

/-- Claim C10: every instance created by a successful `uGnssAdd` starts with
the compile-time default I2C address, the default timeout, message printing
off, both AT-bridge pins set to -1 (not connected), no position task, no
position mutex, empty task flags, and internal device port number 1 for the
UART transport types and 0 for all other types. -/
theorem uGnssAdd_default_instance_state (env : AddEnv) (ov : Option UPortGpioDriveMode)
    (st : GnssState) (mt : Nat) (tt : Int) (th : UGnssTransportHandle)
    (pin : Int) (lpa : Bool) (m : Nat)
    (hm : st.gUGnssPrivateMutex = some m)
    (hdev : env.devCreateOk = true) (hmal : env.mallocOk = true)
    (hmux : env.mutexCreateErr = 0) (hset : env.gpioSetErr = 0) (hcfg : env.gpioConfigErr = 0)
    (hmt : mt < gUGnssPrivateModuleListSize)
    (h1 : U_GNSS_TRANSPORT_NONE < tt) (h2 : tt < U_GNSS_TRANSPORT_MAX_NUM)
    (hid : tt = U_GNSS_TRANSPORT_UBX_I2C ∨ tt = U_GNSS_TRANSPORT_NMEA_I2C ∨
           pGetGnssInstanceTransportHandle st.gpUGnssPrivateInstanceList tt th = none) :
    ∀ inst,
      (uGnssAdd env ov st mt tt th pin lpa).state.gpUGnssPrivateInstanceList.head? = some inst →
      inst.i2cAddress = U_GNSS_I2C_ADDRESS ∧
      inst.timeoutMs = U_GNSS_DEFAULT_TIMEOUT_MS ∧
      inst.printUbxMessages = false ∧
      inst.atModulePinPwr = -1 ∧
      inst.atModulePinDataReady = -1 ∧
      inst.posTask = none ∧
      inst.posMutex = none ∧
      inst.posTaskFlags = 0 ∧
      inst.portNumber =
        (if tt = U_GNSS_TRANSPORT_UBX_UART ∨ tt = U_GNSS_TRANSPORT_NMEA_UART then 1 else 0) := by
  rw [uGnssAdd_ok env ov st mt tt th pin lpa m hm hdev hmal hmux hset hcfg ⟨hmt, ⟨h1, h2⟩, hid⟩]
  intro inst hinst
  simp only [List.head?_cons] at hinst
  injection hinst with he
  subst he
  exact ⟨rfl, rfl, rfl, rfl, rfl, rfl, rfl, rfl, rfl⟩

/-- Witness for C10: the instance created on UART 7 is the head of the list
and carries the default I2C address 0x42, the default 10000 ms timeout and
UART port number 1. -/
theorem uGnssAdd_default_instance_state_witness :
    (uGnssAdd envOk none stEmptyInit 0 U_GNSS_TRANSPORT_UBX_UART thUart7 (-1)
       false).state.gpUGnssPrivateInstanceList.head? = some instUart7 ∧
    instUart7.i2cAddress = U_GNSS_I2C_ADDRESS ∧
    instUart7.timeoutMs = U_GNSS_DEFAULT_TIMEOUT_MS ∧
    instUart7.portNumber = 1 := by
  have hsp := uGnssAdd_default_instance_state envOk none stEmptyInit 0 U_GNSS_TRANSPORT_UBX_UART
    thUart7 (-1) false 0 rfl rfl rfl rfl rfl rfl (by decide) (by decide) (by decide)
    (Or.inr (Or.inr (by decide))) instUart7 (by decide)
  exact ⟨by decide, hsp.1, hsp.2.1, by decide⟩
